import Mathlib

/-!
Shallow embedding of src/assets/product-form.js.

JavaScript numbers are modelled as rationals; DOM attributes and class
lists are modelled as explicit record fields; setTimeout timers are
modelled as explicit pending-timer data; thrown exceptions are modelled
with explicit result flags or Except.
-/

namespace ProductFormJs

/-! ## Cubic bezier evaluation (function bezierPoint, lines 417..430) -/

/-- A 2D point, as the x/y records used by the fly-to-cart animation. -/
structure Point where
  x : ℚ
  y : ℚ
  deriving Repr, DecidableEq

/-- Embedding of function bezierPoint(t, p0, p1, p2, p3): per-axis
coefficient expansion cX = 3(p1-p0), bX = 3(p2-p1)-cX, aX = p3-p0-cX-bX,
value aX*t^3 + bX*t^2 + cX*t + p0. -/
def bezierPoint (t : ℚ) (p0 p1 p2 p3 : Point) : Point :=
  let cX := 3 * (p1.x - p0.x)
  let bX := 3 * (p2.x - p1.x) - cX
  let aX := p3.x - p0.x - cX - bX
  let cY := 3 * (p1.y - p0.y)
  let bY := 3 * (p2.y - p1.y) - cY
  let aY := p3.y - p0.y - cY - bY
  { x := aX * t ^ 3 + bX * t ^ 2 + cX * t + p0.x
    y := aY * t ^ 3 + bY * t ^ 2 + cY * t + p0.y }

/-- Modelled from the spec: the standard Bernstein-form cubic Bezier
B(t) = (1-t)^3 p0 + 3 (1-t)^2 t p1 + 3 (1-t) t^2 p2 + t^3 p3,
applied independently per axis.  This is the spec-side definition a
refinement claim compares bezierPoint against. -/
def bernsteinBezier (t : ℚ) (p0 p1 p2 p3 : Point) : Point :=
  { x := (1 - t) ^ 3 * p0.x + 3 * (1 - t) ^ 2 * t * p1.x +
         3 * (1 - t) * t ^ 2 * p2.x + t ^ 3 * p3.x
    y := (1 - t) ^ 3 * p0.y + 3 * (1 - t) ^ 2 * t * p1.y +
         3 * (1 - t) * t ^ 2 * p2.y + t ^ 3 * p3.y }

/-! ## DOM state touched by #updateAvailabilityState (lines 157..177) -/

/-- State of the add-to-cart button element: its disabled attribute
(getAttribute returns null when absent, modelled as none) and its
inline style.display value. -/
structure ButtonState where
  disabledAttr : Option String
  display : Option String
  deriving Repr, DecidableEq

/-- The avaible / nonavaible classes on the .indic-avaible-stock element. -/
structure IndicatorState where
  avaible : Bool
  nonavaible : Bool
  deriving Repr, DecidableEq

/-- The parts of the DOM that #updateAvailabilityState reads and writes:
the add-to-cart button (reached through the optional container ref), the
stock indicator, and the accelerated-checkout container (some h means the
element exists with hidden-attribute state h; none means absent). -/
structure FormDom where
  addToCartButton : Option ButtonState
  avaibleCheck : Option IndicatorState
  acceleratedCheckout : Option Bool
  deriving Repr, DecidableEq

/-- The one field of a variant record that #updateAvailabilityState reads. -/
structure AvailabilityRecord where
  available : Bool
  deriving Repr, DecidableEq

/-- The JavaScript condition variant == null or variant.available == false. -/
def variantUnavailable : Option AvailabilityRecord → Bool
  | none => true
  | some v => v.available == false

/-- Embedding of #updateAvailabilityState(variant) (lines 157..177).
If either the current add-to-cart button or the stock indicator element
is missing, the function returns without touching anything.  Otherwise
the unavailable branch sets disabled="true", display none, swaps the
indicator classes to nonavaible, and sets hidden on the accelerated
checkout container when it exists; the available branch does the inverse. -/
def updateAvailabilityState (variant : Option AvailabilityRecord) (s : FormDom) : FormDom :=
  match s.addToCartButton, s.avaibleCheck with
  | some btn, some ind =>
    if variantUnavailable variant then
      { addToCartButton := some { btn with disabledAttr := some "true", display := some "none" }
        avaibleCheck := some { ind with avaible := false, nonavaible := true }
        acceleratedCheckout := s.acceleratedCheckout.map (fun _ => true) }
    else
      { addToCartButton := some { btn with disabledAttr := none, display := some "block" }
        avaibleCheck := some { ind with avaible := true, nonavaible := false }
        acceleratedCheckout := s.acceleratedCheckout.map (fun _ => false) }
  | _, _ => s

/-! ## #initializeWithCurrentVariant (lines 136..155) -/

/-- A variant entry of the embedded product JSON: its id (compared after
toString against the variant-id input value) and its available flag. -/
structure Variant where
  id : String
  available : Bool
  deriving Repr, DecidableEq

/-- The embedded product data once parsed: its variants array. -/
structure ProductData where
  variants : List Variant
  deriving Repr, DecidableEq

/-- The console output of #initializeWithCurrentVariant: console.warn when
the data-product-json script element is missing, console.error when parsing
or processing the JSON throws. -/
inductive LogEvent where
  | warnNoScript
  | errorJson
  deriving Repr, DecidableEq

/-- productData.variants.find(v => v.id.toString() === currentVariantId). -/
def findCurrentVariant (pd : ProductData) (currentVariantId : String) : Option Variant :=
  pd.variants.find? (fun v => v.id == currentVariantId)

/-- Embedding of #initializeWithCurrentVariant (lines 136..155).  The
script argument is none when no data-product-json script element exists;
some (.error ()) when JSON.parse (or reading .variants) throws, which the
try/catch turns into a console.error; some (.ok pd) when parsing succeeds.
On success the current variant is looked up by the variant-id input value
and passed (possibly as undefined) to #updateAvailabilityState. -/
def initializeWithCurrentVariant (script : Option (Except Unit ProductData))
    (currentVariantId : String) (s : FormDom) : FormDom × Option LogEvent :=
  match script with
  | none => (s, some LogEvent.warnNoScript)
  | some (Except.error _) => (s, some LogEvent.errorJson)
  | some (Except.ok pd) =>
      (updateAvailabilityState
        ((findCurrentVariant pd currentVariantId).map (fun v => ⟨v.available⟩)) s, none)

/-! ## handleSubmit, request phase (lines 184..213) -/

/-- The inputs the synchronous part of handleSubmit reads: the optional
add-to-cart button (through the optional container ref), the optional
form element with its fields, and the dataset.sectionId values of the
cart-items-component elements on the page (none when the attribute is
absent on a component). -/
structure SubmitEnv where
  addToCartButton : Option ButtonState
  form : Option (List (String × String))
  cartComponents : List (Option String)
  deriving Repr, DecidableEq

/-- The request handleSubmit posts to the cart/add.js route. -/
structure Request where
  url : String
  fields : List (String × String)
  deriving Repr, DecidableEq

/-- Outcome of the synchronous part of handleSubmit: silent return on the
disabled guard, a thrown Error when the form element is missing, or a
network request being issued. -/
inductive SubmitResult where
  | refused
  | thrown (msg : String)
  | sent (req : Request)
  deriving Repr, DecidableEq

/-- The guard addToCartButtonContainer?.refs.addToCartButton?.getAttribute
("disabled") === "true" (line 189). -/
def submitDisabledGuard (env : SubmitEnv) : Bool :=
  match env.addToCartButton with
  | some b => b.disabledAttr == some "true"
  | none => false

/-- The forEach loop over cart-items-component elements (lines 196..203):
each component with a sectionId pushes it onto the accumulating array, and
every iteration appends a "sections" field holding the comma-join of the
array accumulated so far. -/
def buildSectionFields (comps : List (Option String)) : List (String × String) :=
  (comps.foldl
    (fun (acc : List String × List (String × String)) c =>
      let ids := match c with
        | some sid => acc.1 ++ [sid]
        | none => acc.1
      (ids, acc.2 ++ [("sections", String.intercalate "," ids)]))
    ([], [])).2

/-- Embedding of the synchronous part of handleSubmit (lines 184..213),
up to and including the fetch call: clear the pending error timer (kept in
the timer model below), refuse silently when the disabled guard holds,
throw when the form element is missing, else build the form data plus
section fields and issue the request. -/
def handleSubmitRequestPhase (env : SubmitEnv) : SubmitResult :=
  if submitDisabledGuard env then SubmitResult.refused
  else match env.form with
    | none => SubmitResult.thrown "Product form element missing"
    | some fields =>
        SubmitResult.sent
          { url := "cart/add.js"
            fields := fields ++ buildSectionFields env.cartComponents }

/-! ## handleSubmit, response phase (lines 214..286) -/

/-- The add-to-cart text error element: whether the hidden class is
present, the text of its message node (childNodes[2], or the text node the
code appends when that slot is empty), and whether an aria-live attribute
is present. -/
structure ErrorEl where
  hidden : Bool
  messageText : String
  ariaLive : Bool
  deriving Repr, DecidableEq

/-- The events the response handler dispatches: CartErrorEvent(id, message)
on window, and CartAddEvent with its didError flag and, on success, the
sections payload from the response. -/
inductive EmittedEvent where
  | cartError (message : String)
  | cartAdd (didError : Bool) (sections : Option String)
  deriving Repr, DecidableEq

/-- What a timer armed by the response handler does when it fires:
the 10000 ms error timer hides the error element and clears the live
region; the 5000 ms success timer clears the live region. -/
inductive TimerAction where
  | clearErrorAndLive
  | clearLive
  deriving Repr, DecidableEq

/-- DOM-and-effect state threaded through the response handler: the
optional error element, the live region text, the dispatched events and
the armed timers (delay in ms paired with the action of the callback). -/
structure RespState where
  errorEl : Option ErrorEl
  liveRegionText : String
  events : List EmittedEvent
  timers : List (Nat × TimerAction)
  deriving Repr, DecidableEq

/-- The parsed JSON response: its status field (JavaScript truthiness of
a numeric status: present and nonzero), message, and sections payload. -/
structure JsonResponse where
  status : Option Nat
  message : String
  sections : Option String
  deriving Repr, DecidableEq

/-- JavaScript truthiness of response.status. -/
def statusTruthy : Option Nat → Bool
  | none => false
  | some n => n != 0

/-- addedTextElement?.textContent?.trim() || Theme.translations.added
(line 261): the trimmed text of the .add-to-cart-text--added child when
present and nonempty, else the theme translation. -/
def getAddedText (addedTextContent : Option String) (themeAdded : String) : String :=
  match addedTextContent with
  | some t => if t.trim == "" then themeAdded else t.trim
  | none => themeAdded

/-- Fixed inputs of the response handler: formData.get("id"), whether the
add-to-cart button exists, the text content of its added-text child, and
the theme translation for "added". -/
structure RespEnv where
  formId : Option String
  buttonPresent : Bool
  addedTextContent : Option String
  themeAdded : String
  deriving Repr, DecidableEq

/-- Embedding of the response .then callback (lines 215..279).  Error
branch (truthy status): dispatch CartErrorEvent, return early when the
error element is missing, else reveal it, set its message text, set the
live region, arm the 10000 ms clearing timer, and dispatch a CartAddEvent
with didError true.  Success branch: hide the error element and drop its
aria-live attribute when it exists, throw when formData.get("id") is
missing, set the live region to the added phrase and arm the 5000 ms
clearing timer when the add-to-cart button exists, and dispatch a
CartAddEvent carrying the response sections. -/
def handleResponse (env : RespEnv) (resp : JsonResponse) (s : RespState) :
    Except String RespState :=
  if statusTruthy resp.status then
    let s1 : RespState := { s with events := s.events ++ [EmittedEvent.cartError resp.message] }
    match s1.errorEl with
    | none => Except.ok s1
    | some el =>
        Except.ok
          { s1 with
            errorEl := some { el with hidden := false, messageText := resp.message }
            liveRegionText := resp.message
            timers := s1.timers ++ [(10000, TimerAction.clearErrorAndLive)]
            events := s1.events ++ [EmittedEvent.cartAdd true none] }
  else
    let s1 : RespState :=
      match s.errorEl with
      | some el => { s with errorEl := some { el with hidden := true, ariaLive := false } }
      | none => s
    match env.formId with
    | none => Except.error "Form ID is required"
    | some _ =>
        let s2 : RespState :=
          if env.buttonPresent then
            { s1 with
              liveRegionText := getAddedText env.addedTextContent env.themeAdded
              timers := s1.timers ++ [(5000, TimerAction.clearLive)] }
          else s1
        Except.ok { s2 with events := s2.events ++ [EmittedEvent.cartAdd false resp.sections] }

/-- Firing one of the armed timer callbacks.  The error-clearing callback
(lines 232..236) returns early when the error element is missing;
otherwise it adds the hidden class and clears the live region.  The
success callback (lines 265..267) clears the live region. -/
def fireTimerAction (a : TimerAction) (s : RespState) : RespState :=
  match a with
  | TimerAction.clearErrorAndLive =>
      match s.errorEl with
      | some el => { s with errorEl := some { el with hidden := true }, liveRegionText := "" }
      | none => s
  | TimerAction.clearLive => { s with liveRegionText := "" }

/-! ## AddToCartComponent timers (lines 16..96) -/

/-- What an AddToCartComponent timer does when it fires: the outer
2000 ms animation timeout (line 90) arms the cleanup timeout; the inner
10 ms cleanup timeout (line 91) removes the atc-added class. -/
inductive AtcAction where
  | animStep
  | removeClass
  deriving Repr, DecidableEq

/-- A pending timer: its setTimeout id and its callback. -/
structure AtcTimer where
  id : Nat
  action : AtcAction
  deriving Repr, DecidableEq

/-- State of one AddToCartComponent instance together with the timer
queue: the pending timers, the next fresh setTimeout id, the two private
timeout-id fields, and whether the button has the atc-added class. -/
structure AtcState where
  pending : List AtcTimer
  nextId : Nat
  animationTimeout : Option Nat
  cleanupTimeout : Option Nat
  classAdded : Bool
  deriving Repr, DecidableEq

/-- clearTimeout on an optionally-stored id: removes the pending timer
with that id, when the field holds one. -/
def clearTimeoutOpt (o : Option Nat) (ts : List AtcTimer) : List AtcTimer :=
  match o with
  | none => ts
  | some i => ts.filter (fun t => t.id != i)

/-- Embedding of animateAddToCart (lines 80..95): clear the stored
animation and cleanup timeouts, add the atc-added class if absent, then
arm a fresh animation timeout and record its id. -/
def animateAddToCart (s : AtcState) : AtcState :=
  let ts := clearTimeoutOpt s.cleanupTimeout (clearTimeoutOpt s.animationTimeout s.pending)
  { pending := ts ++ [⟨s.nextId, AtcAction.animStep⟩]
    nextId := s.nextId + 1
    animationTimeout := some s.nextId
    cleanupTimeout := s.cleanupTimeout
    classAdded := true }

/-- Firing a pending timer: the timer leaves the queue; the animation
timeout arms the cleanup timeout (storing its id, line 91); the cleanup
timeout removes the atc-added class (line 92). -/
def fireAtcTimer (t : AtcTimer) (s : AtcState) : AtcState :=
  let ts := s.pending.filter (fun u => u.id != t.id)
  match t.action with
  | AtcAction.animStep =>
      { s with
        pending := ts ++ [⟨s.nextId, AtcAction.removeClass⟩]
        nextId := s.nextId + 1
        cleanupTimeout := some s.nextId }
  | AtcAction.removeClass =>
      { s with pending := ts, classAdded := false }

/-- Embedding of AddToCartComponent.disconnectedCallback (lines 31..37):
clearTimeout on both stored timeout ids. -/
def atcDisconnect (s : AtcState) : AtcState :=
  { s with
    pending := clearTimeoutOpt s.cleanupTimeout (clearTimeoutOpt s.animationTimeout s.pending) }

/-- The component as created: no pending timers, no stored ids, no class. -/
def atcInit : AtcState := ⟨[], 0, none, none, false⟩

/-- The states an AddToCartComponent instance and its timer queue can
reach: the initial state, an animateAddToCart call, or a pending timer
firing. -/
inductive AtcReach : AtcState → Prop
  | init : AtcReach atcInit
  | animate {s : AtcState} : AtcReach s → AtcReach (animateAddToCart s)
  | fire {s : AtcState} {t : AtcTimer} : AtcReach s → t ∈ s.pending →
      AtcReach (fireAtcTimer t s)

/-- Inductive invariant of the timer queue: at most one pending timer,
and every pending timer is the one the corresponding private field
tracks, with an id below the fresh-id counter. -/
def AtcInv (s : AtcState) : Prop :=
  s.pending.length ≤ 1 ∧
  (∀ t ∈ s.pending, t.id < s.nextId) ∧
  (∀ t ∈ s.pending, t.action = AtcAction.animStep → s.animationTimeout = some t.id) ∧
  (∀ t ∈ s.pending, t.action = AtcAction.removeClass → s.cleanupTimeout = some t.id)

/-! ## ProductFormComponent teardown (lines 114..134, 232, 265) -/

/-- The asynchronous resources a ProductFormComponent instance can hold:
the error-clearing timer stored in the private timeout field (line 232),
the anonymous success live-region-clearing timer (line 265), and the
variant-update listener tied to the abort controller. -/
structure PfTimers where
  errorClearPending : Bool
  successClearPending : Bool
  listenerActive : Bool
  deriving Repr, DecidableEq

/-- Embedding of ProductFormComponent.disconnectedCallback (lines
131..134): it aborts the abort controller, detaching the variant-update
listener, and does nothing else. -/
def pfDisconnectedCallback (s : PfTimers) : PfTimers :=
  { s with listenerActive := false }

/-! ## #onVariantUpdate (lines 304..331) -/

/-- The variant resource carried by a VariantUpdateEvent: its id (null
becomes the empty string through the ?? fallback, so modelled optional),
its featured_media?.preview_image?.src chain, and its available flag. -/
structure VariantResource where
  id : Option String
  featuredMediaSrc : Option String
  available : Bool
  deriving Repr, DecidableEq

/-- The availability record #updateAvailabilityState reads off a resource. -/
def VariantResource.toRecord (r : VariantResource) : AvailabilityRecord :=
  ⟨r.available⟩

/-- The event.detail fields #onVariantUpdate reads: the optional
newProduct id, the event product id, the addToCartButton element found in
the replacement html fragment, and the optional variant resource. -/
structure UpdateEventDetail where
  newProductId : Option String
  productId : String
  htmlNewButton : Option ButtonState
  resource : Option VariantResource
  deriving Repr, DecidableEq

/-- The ProductFormComponent state #onVariantUpdate touches: its
dataset.productId, the variant-id input value, the availability DOM, and
the data-product-variant-media attribute on the button container. -/
structure PfState where
  datasetProductId : String
  variantIdValue : String
  dom : FormDom
  buttonMediaAttr : Option String
  deriving Repr, DecidableEq

/-- Result of running the handler: the state it left behind and whether
it threw a TypeError.  On a throw the statements before the faulting line
have already run, so the partially-updated state is kept. -/
structure UpdateResult where
  state : PfState
  threw : Bool
  deriving Repr, DecidableEq

/-- The first statement of #onVariantUpdate (lines 305..306): when the
event carries a newProduct, adopt its id as dataset.productId. -/
def applyProductIdStep (e : UpdateEventDetail) (s : PfState) : PfState :=
  match e.newProductId with
  | some pid => { s with datasetProductId := pid }
  | none => s

/-- The morph step (lines 320..322): when the replacement fragment holds
an addToCartButton, the current button is morphed to match it. -/
def applyMorph (e : UpdateEventDetail) (d : FormDom) : FormDom :=
  match e.htmlNewButton with
  | some nb => { d with addToCartButton := some nb }
  | none => d

/-- The body of #onVariantUpdate after the product-id guard (lines
311..330): return when no current add-to-cart button exists; apply the
availability transition for the event resource; morph the button; then
read event.detail.resource.id unconditionally — a TypeError when the
resource is null — and finally set the media attribute when the resource
carries a truthy preview-image src. -/
def onVariantUpdateBody (e : UpdateEventDetail) (s1 : PfState) : UpdateResult :=
  match s1.dom.addToCartButton with
  | none => ⟨s1, false⟩
  | some _ =>
    let s3 : PfState :=
      { s1 with
        dom := applyMorph e
          (updateAvailabilityState (e.resource.map VariantResource.toRecord) s1.dom) }
    match e.resource with
    | none => ⟨s3, true⟩
    | some r =>
      let s4 : PfState := { s3 with variantIdValue := r.id.getD "" }
      match r.featuredMediaSrc with
      | some src =>
          if src == "" then ⟨s4, false⟩
          else ⟨{ s4 with buttonMediaAttr := some (src ++ "&width=100") }, false⟩
      | none => ⟨s4, false⟩

/-- Embedding of #onVariantUpdate (lines 304..331): when the event has a
newProduct the dataset product id is replaced and the handler continues;
otherwise it returns early unless the event product id matches the
dataset product id. -/
def onVariantUpdate (e : UpdateEventDetail) (s : PfState) : UpdateResult :=
  match e.newProductId with
  | some _ => onVariantUpdateBody e (applyProductIdStep e s)
  | none =>
      if e.productId = s.datasetProductId then onVariantUpdateBody e s
      else ⟨s, false⟩

/-! ## Theorems -/

/-- C4: for any four control points, the bezier evaluator bezierPoint
returns exactly p0 at t = 0 and exactly p3 at t = 1, on both axes. -/
theorem bezierPoint_endpoints (p0 p1 p2 p3 : Point) :
    bezierPoint 0 p0 p1 p2 p3 = p0 ∧ bezierPoint 1 p0 p1 p2 p3 = p3 := by
  obtain ⟨x0, y0⟩ := p0
  obtain ⟨x3, y3⟩ := p3
  constructor
  · simp [bezierPoint, Point.mk.injEq]
  · simp [bezierPoint, Point.mk.injEq]

/-- C5: the coefficient-expansion evaluation implemented by bezierPoint
agrees with the Bernstein-form cubic Bezier on every t and every four
control points, per axis. -/
theorem bezierPoint_eq_bernstein (t : ℚ) (p0 p1 p2 p3 : Point) :
    bezierPoint t p0 p1 p2 p3 = bernsteinBezier t p0 p1 p2 p3 := by
  simp [bezierPoint, bernsteinBezier, Point.mk.injEq]
  constructor <;> ring

/-- C1: when both the add-to-cart button and the stock indicator element
are present, #updateAvailabilityState leaves, for an absent variant or
one with available = false, the button with disabled = "true" and display
none, the indicator marked nonavaible, and the accelerated-checkout
container (when it exists) hidden; for a variant with available = true it
leaves the inverse state. -/
theorem updateAvailabilityState_matches_variant
    (variant : Option AvailabilityRecord) (s : FormDom)
    (btn : ButtonState) (ind : IndicatorState)
    (hb : s.addToCartButton = some btn) (hi : s.avaibleCheck = some ind) :
    ((variant = none ∨ variant = some ⟨false⟩) →
      (updateAvailabilityState variant s).addToCartButton = some ⟨some "true", some "none"⟩ ∧
      (updateAvailabilityState variant s).avaibleCheck = some ⟨false, true⟩ ∧
      (updateAvailabilityState variant s).acceleratedCheckout
        = s.acceleratedCheckout.map (fun _ => true)) ∧
    (variant = some ⟨true⟩ →
      (updateAvailabilityState variant s).addToCartButton = some ⟨none, some "block"⟩ ∧
      (updateAvailabilityState variant s).avaibleCheck = some ⟨true, false⟩ ∧
      (updateAvailabilityState variant s).acceleratedCheckout
        = s.acceleratedCheckout.map (fun _ => false)) := by
  constructor
  · rintro (hv | hv) <;> subst hv <;>
      simp [updateAvailabilityState, variantUnavailable, hb, hi]
  · rintro hv
    subst hv
    simp [updateAvailabilityState, variantUnavailable, hb, hi]

/-- Witness for C1 at concrete inputs: an absent variant on an enabled
visible state, and an available variant on a disabled hidden state. -/
theorem updateAvailabilityState_matches_variant_witness :
    ((updateAvailabilityState none
        ⟨some ⟨none, some "block"⟩, some ⟨true, false⟩, some false⟩).addToCartButton
      = some ⟨some "true", some "none"⟩ ∧
     (updateAvailabilityState none
        ⟨some ⟨none, some "block"⟩, some ⟨true, false⟩, some false⟩).avaibleCheck
      = some ⟨false, true⟩ ∧
     (updateAvailabilityState none
        ⟨some ⟨none, some "block"⟩, some ⟨true, false⟩, some false⟩).acceleratedCheckout
      = (some false : Option Bool).map (fun _ => true)) ∧
    ((updateAvailabilityState (some ⟨true⟩)
        ⟨some ⟨some "true", some "none"⟩, some ⟨false, true⟩, some true⟩).addToCartButton
      = some ⟨none, some "block"⟩ ∧
     (updateAvailabilityState (some ⟨true⟩)
        ⟨some ⟨some "true", some "none"⟩, some ⟨false, true⟩, some true⟩).avaibleCheck
      = some ⟨true, false⟩ ∧
     (updateAvailabilityState (some ⟨true⟩)
        ⟨some ⟨some "true", some "none"⟩, some ⟨false, true⟩, some true⟩).acceleratedCheckout
      = (some true : Option Bool).map (fun _ => false)) := by
  constructor
  · exact (updateAvailabilityState_matches_variant none _ ⟨none, some "block"⟩ ⟨true, false⟩
      rfl rfl).1 (Or.inl rfl)
  · exact (updateAvailabilityState_matches_variant (some ⟨true⟩) _
      ⟨some "true", some "none"⟩ ⟨false, true⟩ rfl rfl).2 rfl

/-- C2 counterexample: embedded product JSON that parses but holds no
variant matching the selected id is not a no-op and is not logged — the
initializer passes undefined to #updateAvailabilityState, which disables
the previously enabled button. -/
theorem initialize_unmatched_variant_not_noop :
    (initializeWithCurrentVariant (some (Except.ok ⟨[⟨"111", true⟩]⟩)) "222"
        ⟨some ⟨none, some "block"⟩, some ⟨true, false⟩, some false⟩).1
      ≠ ⟨some ⟨none, some "block"⟩, some ⟨true, false⟩, some false⟩ ∧
    (initializeWithCurrentVariant (some (Except.ok ⟨[⟨"111", true⟩]⟩)) "222"
        ⟨some ⟨none, some "block"⟩, some ⟨true, false⟩, some false⟩).2 = none := by
  constructor
  · decide
  · rfl

/-- C2 amended: a missing data-product-json script or a JSON that throws
during parsing or processing leaves the DOM untouched and logs; a missing
stock indicator or add-to-cart button makes the transition a silent
no-op; but a parsed product with no variant matching the selected id is
handed to #updateAvailabilityState as an absent variant, which applies
the unavailable transition rather than a no-op. -/
theorem initialize_failure_semantics (script : Option (Except Unit ProductData))
    (cid : String) (s : FormDom) :
    (initializeWithCurrentVariant none cid s = (s, some LogEvent.warnNoScript)) ∧
    (∀ err : Unit, initializeWithCurrentVariant (some (Except.error err)) cid s
        = (s, some LogEvent.errorJson)) ∧
    (s.avaibleCheck = none → (initializeWithCurrentVariant script cid s).1 = s) ∧
    (s.addToCartButton = none → (initializeWithCurrentVariant script cid s).1 = s) ∧
    (∀ pd : ProductData, findCurrentVariant pd cid = none →
      initializeWithCurrentVariant (some (Except.ok pd)) cid s
        = (updateAvailabilityState none s, none)) := by
  obtain ⟨ob, oi, oa⟩ := s
  refine ⟨rfl, fun _ => rfl, ?_, ?_, ?_⟩
  · intro hi
    subst hi
    cases script with
    | none => rfl
    | some r =>
      cases r with
      | error e => rfl
      | ok pd => cases ob <;> simp [initializeWithCurrentVariant, updateAvailabilityState]
  · intro hb
    subst hb
    cases script with
    | none => rfl
    | some r =>
      cases r with
      | error e => rfl
      | ok pd => simp [initializeWithCurrentVariant, updateAvailabilityState]
  · intro pd hfind
    simp [initializeWithCurrentVariant, hfind]

/-- Witness for C2 amended at concrete inputs: an empty variants array
with no match reduces to the unavailable transition, and a missing
indicator is a no-op. -/
theorem initialize_failure_semantics_witness :
    (initializeWithCurrentVariant (some (Except.ok ⟨[]⟩)) "1"
        ⟨some ⟨none, some "block"⟩, some ⟨true, false⟩, none⟩
      = (updateAvailabilityState none ⟨some ⟨none, some "block"⟩, some ⟨true, false⟩, none⟩,
         none)) ∧
    (initializeWithCurrentVariant (some (Except.ok ⟨[⟨"9", true⟩]⟩)) "9"
        ⟨some ⟨none, some "block"⟩, none, some false⟩).1
      = ⟨some ⟨none, some "block"⟩, none, some false⟩ := by
  constructor
  · exact (initialize_failure_semantics (some (Except.ok ⟨[]⟩)) "1" _).2.2.2.2 ⟨[]⟩ rfl
  · exact (initialize_failure_semantics (some (Except.ok ⟨[⟨"9", true⟩]⟩)) "9" _).2.2.1 rfl

/-- C3: a submit arriving while the add-to-cart button has its disabled
attribute equal to "true" is refused: handleSubmit returns before
building the request, issuing no network request and throwing nothing. -/
theorem handleSubmit_disabled_refuses (env : SubmitEnv) (b : ButtonState)
    (hb : env.addToCartButton = some b) (hd : b.disabledAttr = some "true") :
    handleSubmitRequestPhase env = SubmitResult.refused := by
  simp [handleSubmitRequestPhase, submitDisabledGuard, hb, hd]

/-- Witness for C3: a concrete disabled state with a form present and a
cart section on the page still yields a refusal. -/
theorem handleSubmit_disabled_refuses_witness :
    handleSubmitRequestPhase
        ⟨some ⟨some "true", some "none"⟩, some [("id", "123"), ("quantity", "1")],
         [some "cart-drawer"]⟩
      = SubmitResult.refused :=
  handleSubmit_disabled_refuses _ ⟨some "true", some "none"⟩ rfl rfl

/-- C6: a JSON response with a truthy error status, when the inline error
element exists, reveals the element with its message text replaced by the
server message, sets the live region to the same message, arms a 10000 ms
timer whose callback hides the element and clears the live region, and
dispatches a CartErrorEvent plus a CartAddEvent flagged didError. -/
theorem handleResponse_error_outcome (env : RespEnv) (resp : JsonResponse)
    (s : RespState) (el : ErrorEl)
    (hs : statusTruthy resp.status = true) (hel : s.errorEl = some el) :
    handleResponse env resp s = Except.ok
      { errorEl := some { el with hidden := false, messageText := resp.message }
        liveRegionText := resp.message
        events := s.events ++ [EmittedEvent.cartError resp.message]
          ++ [EmittedEvent.cartAdd true none]
        timers := s.timers ++ [(10000, TimerAction.clearErrorAndLive)] } ∧
    (fireTimerAction TimerAction.clearErrorAndLive
        { errorEl := some { el with hidden := false, messageText := resp.message }
          liveRegionText := resp.message
          events := s.events ++ [EmittedEvent.cartError resp.message]
            ++ [EmittedEvent.cartAdd true none]
          timers := s.timers ++ [(10000, TimerAction.clearErrorAndLive)] }).errorEl
      = some { el with hidden := true, messageText := resp.message } ∧
    (fireTimerAction TimerAction.clearErrorAndLive
        { errorEl := some { el with hidden := false, messageText := resp.message }
          liveRegionText := resp.message
          events := s.events ++ [EmittedEvent.cartError resp.message]
            ++ [EmittedEvent.cartAdd true none]
          timers := s.timers ++ [(10000, TimerAction.clearErrorAndLive)] }).liveRegionText
      = "" := by
  refine ⟨?_, ?_, ?_⟩
  · simp [handleResponse, hs, hel]
  · simp [fireTimerAction]
  · simp [fireTimerAction]

/-- Witness for C6 at a concrete error response against a concrete form
state with a hidden error element. -/
theorem handleResponse_error_outcome_witness :
    handleResponse ⟨some "123", true, none, "Added"⟩ ⟨some 422, "Sold out", none⟩
        ⟨some ⟨true, "", true⟩, "", [], []⟩
      = Except.ok
        { errorEl := some ⟨false, "Sold out", true⟩
          liveRegionText := "Sold out"
          events := [EmittedEvent.cartError "Sold out"] ++ [EmittedEvent.cartAdd true none]
          timers := [(10000, TimerAction.clearErrorAndLive)] } ∧
    (fireTimerAction TimerAction.clearErrorAndLive
        { errorEl := some ⟨false, "Sold out", true⟩
          liveRegionText := "Sold out"
          events := [EmittedEvent.cartError "Sold out"] ++ [EmittedEvent.cartAdd true none]
          timers := [(10000, TimerAction.clearErrorAndLive)] }).errorEl
      = some ⟨true, "Sold out", true⟩ ∧
    (fireTimerAction TimerAction.clearErrorAndLive
        { errorEl := some ⟨false, "Sold out", true⟩
          liveRegionText := "Sold out"
          events := [EmittedEvent.cartError "Sold out"] ++ [EmittedEvent.cartAdd true none]
          timers := [(10000, TimerAction.clearErrorAndLive)] }).liveRegionText
      = "" :=
  handleResponse_error_outcome ⟨some "123", true, none, "Added"⟩ ⟨some 422, "Sold out", none⟩
    ⟨some ⟨true, "", true⟩, "", [], []⟩ ⟨true, "", true⟩ rfl rfl

/-- C7: a JSON response with no error status, when the form data carries
an id and the add-to-cart button exists, hides any prior inline error
message and drops its aria-live attribute, sets the live region to the
added phrase, arms a 5000 ms timer whose callback clears the live region,
and dispatches a CartAddEvent carrying the response sections. -/
theorem handleResponse_success_outcome (env : RespEnv) (resp : JsonResponse)
    (s : RespState) (fid : String)
    (hs : statusTruthy resp.status = false) (hid : env.formId = some fid)
    (hbtn : env.buttonPresent = true) :
    handleResponse env resp s = Except.ok
      { errorEl := s.errorEl.map (fun el => { el with hidden := true, ariaLive := false })
        liveRegionText := getAddedText env.addedTextContent env.themeAdded
        events := s.events ++ [EmittedEvent.cartAdd false resp.sections]
        timers := s.timers ++ [(5000, TimerAction.clearLive)] } ∧
    (∀ s2 : RespState, (fireTimerAction TimerAction.clearLive s2).liveRegionText = "") := by
  constructor
  · cases h : s.errorEl with
    | none => simp [handleResponse, hs, hid, hbtn, h]
    | some el => simp [handleResponse, hs, hid, hbtn, h]
  · intro s2
    simp [fireTimerAction]

/-- Witness for C7 at a concrete success response against a state showing
a previously visible error message. -/
theorem handleResponse_success_outcome_witness :
    handleResponse ⟨some "123", true, some " Added to cart ", "Added"⟩
        ⟨none, "", some "sections-html"⟩
        ⟨some ⟨false, "old error", true⟩, "old error", [], []⟩
      = Except.ok
        { errorEl := (some (⟨false, "old error", true⟩ : ErrorEl)).map
            (fun el => { el with hidden := true, ariaLive := false })
          liveRegionText := getAddedText (some " Added to cart ") "Added"
          events := [EmittedEvent.cartAdd false (some "sections-html")]
          timers := [(5000, TimerAction.clearLive)] } ∧
    (∀ s2 : RespState, (fireTimerAction TimerAction.clearLive s2).liveRegionText = "") :=
  handleResponse_success_outcome ⟨some "123", true, some " Added to cart ", "Added"⟩
    ⟨none, "", some "sections-html"⟩ ⟨some ⟨false, "old error", true⟩, "old error", [], []⟩
    "123" rfl rfl rfl

/-- A list of length at most one containing t is exactly [t]. -/
theorem atc_pending_singleton {l : List AtcTimer} {t : AtcTimer}
    (hlen : l.length ≤ 1) (hmem : t ∈ l) : l = [t] := by
  cases l with
  | nil => cases hmem
  | cons a as =>
    have hz : as.length = 0 := by
      simpa [Nat.succ_le_succ_iff] using hlen
    have has : as = [] := List.length_eq_zero.mp hz
    subst has
    have : t = a := by simpa using hmem
    subst this
    rfl

/-- Membership after a clearTimeout: still a member of the original list,
and distinct from any cleared id. -/
theorem mem_clearTimeoutOpt {o : Option Nat} {ts : List AtcTimer} {t : AtcTimer}
    (h : t ∈ clearTimeoutOpt o ts) : t ∈ ts ∧ ∀ i, o = some i → t.id ≠ i := by
  cases o with
  | none =>
    refine ⟨by simpa [clearTimeoutOpt] using h, ?_⟩
    intro i hi
    cases hi
  | some i =>
    simp only [clearTimeoutOpt, List.mem_filter] at h
    refine ⟨h.1, ?_⟩
    intro j hj
    cases hj
    simpa using h.2

/-- Under the invariant, clearing both stored timeout ids empties the
pending-timer queue: every pending timer is one of the two tracked ones. -/
theorem atc_clear_of_inv {s : AtcState} (h : AtcInv s) :
    clearTimeoutOpt s.cleanupTimeout (clearTimeoutOpt s.animationTimeout s.pending) = [] := by
  obtain ⟨hlen, hid, hanim, hclean⟩ := h
  refine List.eq_nil_iff_forall_not_mem.mpr ?_
  intro t ht
  obtain ⟨ht1, hne1⟩ := mem_clearTimeoutOpt ht
  obtain ⟨ht0, hne0⟩ := mem_clearTimeoutOpt ht1
  cases ha : t.action with
  | animStep => exact hne0 t.id (hanim t ht0 ha) rfl
  | removeClass => exact hne1 t.id (hclean t ht0 ha) rfl

/-- The invariant holds initially. -/
theorem atcInv_init : AtcInv atcInit := by
  simp [AtcInv, atcInit]

/-- animateAddToCart preserves the invariant: it cancels both tracked
timers (emptying the queue) and arms exactly one fresh animation timer. -/
theorem atcInv_animate {s : AtcState} (h : AtcInv s) : AtcInv (animateAddToCart s) := by
  have hclr := atc_clear_of_inv h
  unfold animateAddToCart
  rw [hclr]
  refine ⟨by simp, ?_, ?_, ?_⟩ <;> intro t ht <;>
    simp only [List.nil_append, List.mem_singleton] at ht <;> subst ht
  · simp
  · intro _
    rfl
  · intro hact
    cases hact

/-- Firing a pending timer preserves the invariant: the fired timer
leaves the queue, and the animation timer arms exactly one fresh tracked
cleanup timer. -/
theorem atcInv_fire {s : AtcState} {t : AtcTimer} (h : AtcInv s) (ht : t ∈ s.pending) :
    AtcInv (fireAtcTimer t s) := by
  have hsing : s.pending = [t] := atc_pending_singleton h.1 ht
  unfold fireAtcTimer
  rw [hsing]
  have hfilter : List.filter (fun u => u.id != t.id) [t] = [] := by simp
  rw [hfilter]
  cases ha : t.action with
  | animStep =>
    refine ⟨by simp, ?_, ?_, ?_⟩ <;> intro u hu <;>
      simp only [List.nil_append, List.mem_singleton] at hu <;> subst hu
    · simp
    · intro hact
      cases hact
    · intro _
      rfl
  | removeClass =>
    exact ⟨by simp, by simp, by simp, by simp⟩

/-- Every reachable state of an AddToCartComponent instance satisfies the
timer invariant. -/
theorem atcInv_reach {s : AtcState} (h : AtcReach s) : AtcInv s := by
  induction h with
  | init => exact atcInv_init
  | animate _ ih => exact atcInv_animate ih
  | fire _ hmem ih => exact atcInv_fire ih hmem

/-- C9: in every reachable state at most one class-removal callback is
pending, and invoking animateAddToCart again cancels whatever timers the
previous invocation left pending before arming its own — afterwards the
freshly armed animation timer is the only pending timer. -/
theorem animateAddToCart_single_removal (s : AtcState) (h : AtcReach s) :
    (s.pending.filter (fun t => t.action == AtcAction.removeClass)).length ≤ 1 ∧
    (animateAddToCart s).pending = [⟨s.nextId, AtcAction.animStep⟩] := by
  have hinv := atcInv_reach h
  constructor
  · exact le_trans (List.length_filter_le _ _) hinv.1
  · show (animateAddToCart s).pending = _
    unfold animateAddToCart
    rw [atc_clear_of_inv hinv]
    rfl

/-- Witness for C9: re-triggering animateAddToCart right after a first
trigger cancels the pending timer with id 0 and leaves only the fresh
animation timer with id 1. -/
theorem animateAddToCart_single_removal_witness :
    ((animateAddToCart atcInit).pending.filter
        (fun t => t.action == AtcAction.removeClass)).length ≤ 1 ∧
    (animateAddToCart (animateAddToCart atcInit)).pending = [⟨1, AtcAction.animStep⟩] :=
  animateAddToCart_single_removal (animateAddToCart atcInit) (AtcReach.animate AtcReach.init)

/-- C8 counterexample: ProductFormComponent.disconnectedCallback only
aborts the listener controller; with both the error-clear timer and the
success live-region timer pending, both are still pending after teardown,
contrary to the claim that every pending timer is explicitly cleared. -/
theorem productForm_disconnect_leaves_timers :
    (pfDisconnectedCallback ⟨true, true, true⟩).errorClearPending = true ∧
    (pfDisconnectedCallback ⟨true, true, true⟩).successClearPending = true := by
  exact ⟨rfl, rfl⟩

/-- C8 amended: on teardown the AddToCartComponent clears every timer it
has pending (its animation and cleanup timers), while the
ProductFormComponent teardown only detaches its variant-update listener
and leaves its error-clear and success live-region timers pending. -/
theorem disconnect_timer_semantics :
    (∀ s : AtcState, AtcReach s → (atcDisconnect s).pending = []) ∧
    (∀ p : PfTimers, pfDisconnectedCallback p = { p with listenerActive := false }) := by
  constructor
  · intro s h
    have hinv := atcInv_reach h
    show (atcDisconnect s).pending = []
    unfold atcDisconnect
    rw [atc_clear_of_inv hinv]
  · intro p
    rfl

/-- Witness for C8 amended: disconnecting right after one trigger clears
the pending animation timer; a product form with both timers pending
keeps them after teardown. -/
theorem disconnect_timer_semantics_witness :
    (atcDisconnect (animateAddToCart atcInit)).pending = [] ∧
    pfDisconnectedCallback ⟨true, true, true⟩ = ⟨true, true, false⟩ :=
  ⟨disconnect_timer_semantics.1 (animateAddToCart atcInit) (AtcReach.animate AtcReach.init),
   disconnect_timer_semantics.2 ⟨true, true, true⟩⟩

/-- Behavior of the post-guard body of #onVariantUpdate given a current
add-to-cart button: a null resource throws after the availability update
and morph, leaving the variant-id value untouched; a non-null resource
completes and writes the resource id (empty string when the id is null). -/
theorem onVariantUpdateBody_resource {e : UpdateEventDetail} {s1 : PfState}
    {btn : ButtonState} (hb : s1.dom.addToCartButton = some btn) :
    (e.resource = none →
      onVariantUpdateBody e s1
        = ⟨{ s1 with dom := applyMorph e (updateAvailabilityState none s1.dom) }, true⟩) ∧
    (∀ r : VariantResource, e.resource = some r →
      (onVariantUpdateBody e s1).threw = false ∧
      (onVariantUpdateBody e s1).state.variantIdValue = r.id.getD "") := by
  constructor
  · intro hr
    simp [onVariantUpdateBody, hb, hr]
  · intro r hr
    cases hm : r.featuredMediaSrc with
    | none => simp [onVariantUpdateBody, hb, hr, hm]
    | some src =>
      by_cases hsrc : src == ""
      · simp [onVariantUpdateBody, hb, hr, hm, hsrc]
      · simp [onVariantUpdateBody, hb, hr, hm, hsrc]

/-- C10: every variant-change notification that passes the product-id
guard and finds a current add-to-cart button requires a non-null
resource: with a null resource the handler throws after applying the
availability transition (treating null as unavailable) and the morph,
and the variant-id field keeps its old value; with a non-null resource
the read of event.detail.resource.id cannot fault, the handler completes
and writes the resource id into the variant-id field. -/
theorem onVariantUpdate_requires_resource (e : UpdateEventDetail) (s : PfState)
    (btn : ButtonState)
    (hguard : e.newProductId ≠ none ∨ e.productId = s.datasetProductId)
    (hbtn : s.dom.addToCartButton = some btn) :
    (e.resource = none →
      (onVariantUpdate e s).threw = true ∧
      (onVariantUpdate e s).state.variantIdValue = s.variantIdValue ∧
      (onVariantUpdate e s).state.dom
        = applyMorph e (updateAvailabilityState none (applyProductIdStep e s).dom)) ∧
    (∀ r : VariantResource, e.resource = some r →
      (onVariantUpdate e s).threw = false ∧
      (onVariantUpdate e s).state.variantIdValue = r.id.getD "") := by
  cases hp : e.newProductId with
  | some pid =>
    have hdom : (applyProductIdStep e s).dom.addToCartButton = some btn := by
      simp [applyProductIdStep, hp, hbtn]
    have hval : (applyProductIdStep e s).variantIdValue = s.variantIdValue := by
      simp [applyProductIdStep, hp]
    have hbody := onVariantUpdateBody_resource (e := e) hdom
    constructor
    · intro hr
      have h1 := hbody.1 hr
      refine ⟨?_, ?_, ?_⟩ <;> simp [onVariantUpdate, hp, h1, hval]
    · intro r hr
      have h2 := hbody.2 r hr
      exact ⟨by simp [onVariantUpdate, hp, h2.1], by simp [onVariantUpdate, hp, h2.2]⟩
  | none =>
    have heq : e.productId = s.datasetProductId := by
      cases hguard with
      | inl h => exact absurd hp h
      | inr h => exact h
    have hbody := onVariantUpdateBody_resource (e := e) hbtn
    constructor
    · intro hr
      have h1 := hbody.1 hr
      have happ : applyProductIdStep e s = s := by
        simp [applyProductIdStep, hp]
      refine ⟨?_, ?_, ?_⟩ <;> simp [onVariantUpdate, hp, heq, h1, happ]
    · intro r hr
      have h2 := hbody.2 r hr
      exact ⟨by simp [onVariantUpdate, hp, heq, h2.1], by simp [onVariantUpdate, hp, heq, h2.2]⟩

/-- Witness for C10: a null-resource event against a matching product id
throws with the variant id untouched and the unavailable transition plus
morph applied, while a non-null resource completes and writes its id. -/
theorem onVariantUpdate_requires_resource_witness :
    ((onVariantUpdate ⟨none, "p1", some ⟨none, some "block"⟩, none⟩
        ⟨"p1", "42", ⟨some ⟨none, some "block"⟩, some ⟨true, false⟩, none⟩, none⟩).threw
      = true ∧
     (onVariantUpdate ⟨none, "p1", some ⟨none, some "block"⟩, none⟩
        ⟨"p1", "42", ⟨some ⟨none, some "block"⟩, some ⟨true, false⟩, none⟩, none⟩).state.variantIdValue
      = "42" ∧
     (onVariantUpdate ⟨none, "p1", some ⟨none, some "block"⟩, none⟩
        ⟨"p1", "42", ⟨some ⟨none, some "block"⟩, some ⟨true, false⟩, none⟩, none⟩).state.dom
      = applyMorph ⟨none, "p1", some ⟨none, some "block"⟩, none⟩
          (updateAvailabilityState none
            (applyProductIdStep ⟨none, "p1", some ⟨none, some "block"⟩, none⟩
              ⟨"p1", "42", ⟨some ⟨none, some "block"⟩, some ⟨true, false⟩, none⟩, none⟩).dom)) ∧
    ((onVariantUpdate ⟨none, "p1", none, some ⟨some "77", none, true⟩⟩
        ⟨"p1", "42", ⟨some ⟨none, some "block"⟩, some ⟨true, false⟩, none⟩, none⟩).threw
      = false ∧
     (onVariantUpdate ⟨none, "p1", none, some ⟨some "77", none, true⟩⟩
        ⟨"p1", "42", ⟨some ⟨none, some "block"⟩, some ⟨true, false⟩, none⟩, none⟩).state.variantIdValue
      = (some "77").getD "") :=
  ⟨(onVariantUpdate_requires_resource ⟨none, "p1", some ⟨none, some "block"⟩, none⟩
      ⟨"p1", "42", ⟨some ⟨none, some "block"⟩, some ⟨true, false⟩, none⟩, none⟩
      ⟨none, some "block"⟩ (Or.inr rfl) rfl).1 rfl,
   (onVariantUpdate_requires_resource ⟨none, "p1", none, some ⟨some "77", none, true⟩⟩
      ⟨"p1", "42", ⟨some ⟨none, some "block"⟩, some ⟨true, false⟩, none⟩, none⟩
      ⟨none, some "block"⟩ (Or.inr rfl) rfl).2 ⟨some "77", none, true⟩ rfl⟩

end ProductFormJs
